import Mathlib

/-
  Verification of the ZeroClaw browser-control relay against its specification.

  The development shallowly embeds the two sides of the system:

  * the bridge server (bridge-server/server.js): the command relay that owns
    the single WebSocket to the Chrome extension, the pending-command table
    keyed by correlation id, the deadline timers, and the REST health handler;

  * the Chrome extension background worker (chrome-extension/background.js):
    the command router with its reconnect backoff, and the url normalization
    used by the navigate action;

  * the content script (content_script.js): the selector resolver.

  Stateful JavaScript is modelled as explicit state passing: each event
  handler becomes a pure function from the relay state (and the event payload)
  to the new state together with the observable effects it performs — the
  resolutions delivered to parked callers and the frames written to the
  socket.  Browser APIs (querySelector, document.evaluate, chrome.tabs) are
  oracle parameters of the corresponding functions.
-/

namespace ZeroClaw

/-! ### Bridge server state (bridge-server/server.js) -/

/-- `COMMAND_TIMEOUT_MS` from server.js. -/
def COMMAND_TIMEOUT_MS : Nat := 30000

/-- WebSocket readyState values (ws library constants). -/
inductive ReadyState where
  | connecting
  | opened
  | closing
  | closedState
deriving DecidableEq, Repr

/-- `extensionSocket !== null && extensionSocket.readyState === WebSocket.OPEN`:
the guard used both by `sendCommand` (negated) and by the health handler. -/
def socketIsOpen (sock : Option ReadyState) : Bool :=
  match sock with
  | some ReadyState.opened => true
  | _ => false

/-- The mutable state of server.js: the single extension socket
(`extensionSocket`, null or a socket with a readyState), the key set of the
`pendingCommands` map in insertion order (the values are the resolve/reject
closures, observable only through the outcomes the handlers deliver), and the
live deadline timers, each recording the correlation id it will delete and
the action string captured by its closure for the timeout message. -/
structure RelayState where
  socket : Option ReadyState
  pending : List String
  timers : List (String × String)
deriving DecidableEq, Repr

/-- `Map.set` on the key set: an existing key keeps its place, a new key is
appended. -/
def keysAdd (m : List String) (k : String) : List String :=
  if m.contains k then m else m ++ [k]

/-- `Map.delete` on the key set. -/
def keysRemove (m : List String) (k : String) : List String :=
  m.filter (fun x => x != k)

/-- Resolution delivered to a parked caller: `resolve(data)` (the data field
may be absent) or `reject(new Error(message))`. -/
inductive Outcome (α : Type) where
  | resolved (data : Option α)
  | rejected (error : String)
deriving DecidableEq, Repr

/-- The payload `JSON.stringify({ id, action, ...params })` written to the
extension socket by `sendCommand`. -/
structure Envelope where
  id : String
  action : String
  params : List (String × String)
deriving DecidableEq, Repr

/-- What one call of `sendCommand` does: the state afterward, the immediate
rejection delivered to the caller (if any), and the envelope written to the
socket (if any). -/
structure SendResult (α : Type) where
  state : RelayState
  immediate : Option (Outcome α)
  sent : Option Envelope
deriving DecidableEq, Repr

/-- `sendCommand(action, params)` from server.js, with the fresh
`crypto.randomUUID()` passed in as `i`: when the socket is missing or not
OPEN, reject at once and create neither a timer nor a pending entry;
otherwise create the deadline timer, register the pending entry and send
`{ id, action, ...params }`. -/
def sendCommand {α : Type} (s : RelayState) (action : String)
    (params : List (String × String)) (i : String) : SendResult α :=
  if socketIsOpen s.socket then
    { state :=
        { s with
          pending := keysAdd s.pending i,
          timers := (i, action) :: s.timers },
      immediate := none,
      sent := some { id := i, action := action, params := params } }
  else
    { state := s,
      immediate := some (Outcome.rejected "Chrome extension is not connected"),
      sent := none }

/-- A frame from the extension as the server sees it after `JSON.parse`:
the fields the message handler inspects.  `id = some ""` stands for a present
but falsy id (JS truthiness). -/
structure InFrame (α : Type) where
  type : Option String
  id : Option String
  success : Bool
  data : Option α
  error : Option String
deriving DecidableEq, Repr

/-- JS `a || b` on an optional string: the default is used when the field is
absent or empty (falsy). -/
def jsStringOr (o : Option String) (d : String) : String :=
  match o with
  | some e => if e = "" then d else e
  | none => d

/-- A reply frame as produced by the extension (no `type` field). -/
def mkReply {α : Type} (i : String) (success : Bool) (d : Option α)
    (e : Option String) : InFrame α :=
  { type := none, id := some i, success := success, data := d, error := e }

/-- The `socket.on("message")` handler of server.js.  `parsed = none` is a
JSON parse failure (logged and dropped).  Ping and extension_ready frames are
consumed without effect.  A frame with a truthy id matching a pending entry
clears its timer, removes the entry and resolves or rejects the caller; any
other frame is dropped. -/
def onMessage {α : Type} (s : RelayState) (parsed : Option (InFrame α)) :
    RelayState × Option (String × Outcome α) :=
  match parsed with
  | none => (s, none)
  | some msg =>
    if msg.type = some "ping" then (s, none)
    else if msg.type = some "extension_ready" then (s, none)
    else
      match msg.id with
      | none => (s, none)
      | some i =>
        if (i != "") && s.pending.contains i then
          let s2 : RelayState :=
            { s with
              pending := keysRemove s.pending i,
              timers := s.timers.filter (fun t => t.1 != i) }
          if msg.success then (s2, some (i, Outcome.resolved msg.data))
          else (s2, some (i, Outcome.rejected (jsStringOr msg.error "Extension command failed")))
        else (s, none)

/-- The `socket.on("close")` handler of server.js: null out the socket when
the closing socket is the current one, then clear every pending timer, reject
every pending caller with the disconnect error and empty the table. -/
def onClose {α : Type} (s : RelayState) (isCurrent : Bool) :
    RelayState × List (String × Outcome α) :=
  ({ socket := if isCurrent then none else s.socket,
     pending := [],
     timers := s.timers.filter (fun t => !(s.pending.contains t.1)) },
   s.pending.map (fun i => (i, Outcome.rejected "Extension disconnected")))

/-- The deadline timer callback of `sendCommand`: when the timer for `i` is
still live it deletes the pending entry and rejects the caller with the
timeout message built from the captured action; a cleared timer never runs. -/
def fireTimeout {α : Type} (s : RelayState) (i : String) :
    RelayState × Option (String × Outcome α) :=
  match s.timers.find? (fun t => t.1 == i) with
  | none => (s, none)
  | some t =>
    ({ s with
       pending := keysRemove s.pending i,
       timers := s.timers.filter (fun u => u.1 != i) },
     some (i, Outcome.rejected
       ("Command timed out after " ++ toString (COMMAND_TIMEOUT_MS / 1000) ++ "s: " ++ t.2)))

/-- A JSON scalar appearing in the health response. -/
inductive HVal where
  | str (s : String)
  | bool (b : Bool)
  | nat (n : Nat)
deriving DecidableEq, Repr

/-- The `GET /health` handler of server.js, as the key/value object passed to
`res.json`. -/
def healthHandler (s : RelayState) : List (String × HVal) :=
  [("status", HVal.str "ok"),
   ("extensionConnected", HVal.bool (socketIsOpen s.socket)),
   ("pendingCommands", HVal.nat s.pending.length)]

/-- `SHORTCUT_ACTIONS` from server.js: the enumerated action set. -/
def SHORTCUT_ACTIONS : List String :=
  ["navigate", "click", "fill", "scrape", "screenshot", "scroll", "hover",
   "get_text", "get_title"]

/-! ### Chrome extension background worker (chrome-extension/background.js) -/

/-- JS `s.startsWith(p)` on the character sequence of the string. -/
def jsStartsWith (s p : String) : Bool := p.data.isPrefixOf s.data

/-- JS `s.trim()`: strip leading and trailing whitespace. -/
def jsTrim (s : String) : String :=
  String.mk (((s.data.dropWhile Char.isWhitespace).reverse.dropWhile
    Char.isWhitespace).reverse)

/-- `RECONNECT_BASE_MS` from the timer-based background.js. -/
def RECONNECT_BASE_MS : Nat := 1000

/-- `RECONNECT_MAX_MS` from the timer-based background.js. -/
def RECONNECT_MAX_MS : Nat := 30000

/-- The update performed inside the `scheduleReconnect` timer callback:
`reconnectDelay = Math.min(reconnectDelay * 2, RECONNECT_MAX_MS)`. -/
def nextReconnectDelay (d : Nat) : Nat := min (d * 2) RECONNECT_MAX_MS

/-- The value of the `reconnectDelay` variable after `k` reconnect timer
callbacks have run, starting from a fresh worker (`RECONNECT_BASE_MS`). -/
def reconnectDelayAfter : Nat → Nat
  | 0 => RECONNECT_BASE_MS
  | Nat.succ k => nextReconnectDelay (reconnectDelayAfter k)

/-- The wait programmed by the k-th consecutive `scheduleReconnect` call
(k counted from 1, one call per consecutive connection failure): the timer
is armed with the current `reconnectDelay`, which `k - 1` earlier callbacks
have doubled. -/
def scheduleReconnectWait (k : Nat) : Nat := reconnectDelayAfter (k - 1)

/-- The url normalization in `navigate`:
`url.startsWith("http") ? url : ` the url behind `https://`. -/
def targetUrl (url : String) : String :=
  if jsStartsWith url "http" then url else "https://" ++ url

/-- `handleCommand(action, params)` from background.js: the switch that routes
navigate/screenshot/get_title to background helpers and
click/fill/scrape/scroll/hover/get_text to the content script, and throws
`Unknown action` otherwise.  The two helpers are oracle parameters standing
for the chrome.tabs / chrome.scripting interactions; a missing action field
destructures to undefined and falls into the default branch. -/
def handleCommand {α : Type}
    (background contentScript : String → List (String × String) → Except String α)
    (action : Option String) (params : List (String × String)) : Except String α :=
  match action with
  | none => Except.error "Unknown action: undefined"
  | some a =>
    if a = "navigate" then background a params
    else if a = "screenshot" then background a params
    else if a = "get_title" then background a params
    else if a = "click" then contentScript a params
    else if a = "fill" then contentScript a params
    else if a = "scrape" then contentScript a params
    else if a = "scroll" then contentScript a params
    else if a = "hover" then contentScript a params
    else if a = "get_text" then contentScript a params
    else Except.error ("Unknown action: " ++ a)

/-- A command frame as the extension sees it after
`const { id, action, ...params } = msg`. -/
structure ExtInFrame where
  id : Option String
  action : Option String
  params : List (String × String)
deriving DecidableEq, Repr

/-- A frame the extension writes back over the socket. -/
structure ExtReply (α : Type) where
  id : Option String
  success : Bool
  data : Option α
  error : Option String
deriving DecidableEq, Repr

/-- The `ws.onmessage` handler of background.js: a parse failure answers with
an id-less invalid-JSON frame; otherwise `handleCommand` runs and exactly one
reply frame carrying the incoming id is sent, `{id, success:true, data}` on
success and `{id, success:false, error}` on failure.  The result lists every
`send` call the handler performs. -/
def wsOnMessage {α : Type}
    (background contentScript : String → List (String × String) → Except String α)
    (parsed : Option ExtInFrame) : List (ExtReply α) :=
  match parsed with
  | none =>
    [{ id := none, success := false, data := none,
       error := some "Invalid JSON from bridge server" }]
  | some msg =>
    match handleCommand background contentScript msg.action msg.params with
    | Except.ok r =>
      [{ id := msg.id, success := true, data := some r, error := none }]
    | Except.error e =>
      [{ id := msg.id, success := false, data := none, error := some e }]

/-- An extension reply frame as parsed by the server message handler (the
wire glue: the extension writes `{id, success, data}` or
`{id, success, error}`, never a `type` field). -/
def replyToInFrame {α : Type} (r : ExtReply α) : InFrame α :=
  { type := none, id := r.id, success := r.success, data := r.data,
    error := r.error }

/-! ### Content script selector resolver (content_script.js) -/

/-- A DOM element, identified for the model by a node id, carrying the
`textContent` the resolver inspects. -/
structure DomElem where
  eid : Nat
  textContent : String
deriving DecidableEq, Repr

/-- The document as `resolveElement` observes it.  `css` is
`document.querySelector`: `none` is a thrown syntax error, `some none` a
clean miss, `some (some e)` a hit.  `xpath` is `document.evaluate` with
`FIRST_ORDERED_NODE_TYPE`, returning its `singleNodeValue` the same way.
`elems` is the sequence visited by the tree walker over `document.body` with
`SHOW_ELEMENT`, in document order. -/
structure DomDoc where
  css : String → Option (Option DomElem)
  xpath : String → Option (Option DomElem)
  elems : List DomElem

/-- `resolveElement(selector)` from content_script.js: empty (falsy) selector
resolves to null; else try the CSS query, swallowing errors and misses; then
the XPath query likewise; then walk the elements in document order and return
the first whose trimmed text equals the trimmed selector; else null. -/
def resolveElement (doc : DomDoc) (selector : String) : Option DomElem :=
  if selector = "" then none
  else
    match doc.css selector with
    | some (some el) => some el
    | _ =>
      match doc.xpath selector with
      | some (some el) => some el
      | _ => doc.elems.find? (fun n => jsTrim n.textContent == jsTrim selector)

/-- A concrete document used to exercise the resolver: the CSS and XPath
queries both miss cleanly and the walker visits three elements. -/
def docTextOnly : DomDoc :=
  { css := fun _ => some none,
    xpath := fun _ => some none,
    elems := [DomElem.mk 0 "Nope", DomElem.mk 1 "  Hello  ", DomElem.mk 2 "Hello"] }

/-- A concrete document refuting the claimed strategy at the empty locator:
the CSS and XPath queries miss cleanly and the walker visits one element
whose text content is empty — the kind of element (br, img, empty div) found
on essentially every page. -/
def docEmptyText : DomDoc :=
  { css := fun _ => some none,
    xpath := fun _ => some none,
    elems := [DomElem.mk 0 ""] }

/-! ### Helper lemmas -/

theorem contains_keysAdd_self (m : List String) (k : String) :
    (keysAdd m k).contains k = true := by
  by_cases h : k ∈ m <;> simp [keysAdd, h]

theorem contains_keysRemove_self (m : List String) (k : String) :
    (keysRemove m k).contains k = false := by
  simp [keysRemove, List.mem_filter]

theorem mem_keysAdd_self (m : List String) (k : String) : k ∈ keysAdd m k := by
  by_cases h : k ∈ m <;> simp [keysAdd, h]

theorem not_mem_keysRemove_self (m : List String) (k : String) :
    k ∉ keysRemove m k := by
  simp [keysRemove, List.mem_filter]

theorem unknown_action_msg_ne_empty (a : String) :
    ("Unknown action: " ++ a) ≠ "" := by
  intro h
  have h2 := congrArg String.length h
  rw [String.length_append] at h2
  have h3 : ("Unknown action: ").length = 16 := rfl
  rw [h3] at h2
  simp at h2

theorem find_first_in_append {γ : Type} (p : γ → Bool) (l₁ l₂ : List γ) (e : γ)
    (h1 : ∀ n ∈ l₁, p n = false) (h2 : p e = true) :
    List.find? p (l₁ ++ e :: l₂) = some e := by
  induction l₁ with
  | nil => simpa using List.find?_cons_of_pos l₂ h2
  | cons a t ih =>
    have ha : ¬ p a = true := by simp [h1 a (List.mem_cons_self a t)]
    rw [List.cons_append, List.find?_cons_of_neg _ ha]
    exact ih fun n hn => h1 n (List.mem_cons_of_mem a hn)

/-! ### Claim theorems -/

/-- C1: with a live OPEN peer socket, a submitted command puts its envelope on
the wire, and when the reply frame with the matching correlation id and
success true arrives before the deadline fires, the relay resolves the caller
with exactly the data field of that reply and the pending entry for that id
is gone from the table afterward (no leak). -/
theorem c1_reply_resolves_with_data {α : Type} (s : RelayState) (action : String)
    (params : List (String × String)) (i : String) (d : Option α)
    (hopen : socketIsOpen s.socket = true) (hid : i ≠ "") :
    (sendCommand (α := α) s action params i).sent =
      some { id := i, action := action, params := params } ∧
    (onMessage (sendCommand (α := α) s action params i).state
        (some (mkReply i true d none))).2 = some (i, Outcome.resolved d) ∧
    ((onMessage (sendCommand (α := α) s action params i).state
        (some (mkReply i true d none))).1).pending.contains i = false := by
  have hsent : (sendCommand (α := α) s action params i) =
      { state :=
          { s with pending := keysAdd s.pending i,
                   timers := (i, action) :: s.timers },
        immediate := none,
        sent := some { id := i, action := action, params := params } } := by
    simp [sendCommand, hopen]
  refine ⟨by rw [hsent], ?_, ?_⟩
  · rw [hsent]
    simp [onMessage, mkReply, hid, mem_keysAdd_self]
  · rw [hsent]
    simp [onMessage, mkReply, hid, mem_keysAdd_self, not_mem_keysRemove_self]

/-- C1 witness at a concrete input. -/
theorem c1_witness :
    (sendCommand (α := Nat) (RelayState.mk (some ReadyState.opened) [] [])
        "click" [] "id-1").sent = some (Envelope.mk "id-1" "click" []) ∧
    (onMessage (sendCommand (α := Nat) (RelayState.mk (some ReadyState.opened) [] [])
          "click" [] "id-1").state
        (some (mkReply "id-1" true (some 5) none))).2 =
      some ("id-1", Outcome.resolved (some 5)) ∧
    ((onMessage (sendCommand (α := Nat) (RelayState.mk (some ReadyState.opened) [] [])
          "click" [] "id-1").state
        (some (mkReply "id-1" true (some 5) none))).1).pending.contains "id-1" = false :=
  c1_reply_resolves_with_data (RelayState.mk (some ReadyState.opened) [] [])
    "click" [] "id-1" (some 5) rfl (by decide)

/-- C2: when the peer connection closes with N pending requests outstanding,
every one of them is rejected with the peer-disconnected error, the rejection
list has exactly N entries, the table is empty immediately afterward, and no
timer of a formerly pending id survives. -/
theorem c2_close_rejects_all_pending {α : Type} (s : RelayState) (isCurrent : Bool) :
    (onClose (α := α) s isCurrent).1.pending = [] ∧
    (onClose (α := α) s isCurrent).2 =
      s.pending.map (fun i => (i, Outcome.rejected "Extension disconnected")) ∧
    (onClose (α := α) s isCurrent).2.length = s.pending.length ∧
    (onClose (α := α) s isCurrent).1.timers.all
      (fun t => !(s.pending.contains t.1)) = true := by
  refine ⟨rfl, rfl, by simp [onClose], ?_⟩
  simp only [onClose, List.all_eq_true, List.mem_filter]
  intro t ht
  exact ht.2

/-- C3: a submission made while the peer socket is null or not OPEN is
rejected immediately with the peer-unavailable error, the state is unchanged
(no deadline timer armed, no pending entry created) and nothing is sent. -/
theorem c3_disconnected_submit_rejects {α : Type} (s : RelayState) (action : String)
    (params : List (String × String)) (i : String)
    (hclosed : socketIsOpen s.socket = false) :
    sendCommand (α := α) s action params i =
      { state := s,
        immediate := some (Outcome.rejected "Chrome extension is not connected"),
        sent := none } := by
  simp [sendCommand, hclosed]

/-- C3 witness at a concrete input. -/
theorem c3_witness :
    sendCommand (α := Nat) (RelayState.mk none [] []) "navigate" [] "id-2" =
      { state := RelayState.mk none [] [],
        immediate := some (Outcome.rejected "Chrome extension is not connected"),
        sent := none } :=
  c3_disconnected_submit_rejects (RelayState.mk none [] []) "navigate" [] "id-2" rfl

/-- C4: a reply frame whose id matches no pending entry is dropped with no
observable effect — the state is unchanged and no caller is resolved; in
particular, once the deadline timer for an id has fired (removing the entry
and delivering the timeout rejection), a late reply for that id changes
nothing, so each pending request is resolved exactly once and a delivered
timeout result is never altered. -/
theorem c4_unmatched_reply_dropped {α : Type} :
    (∀ (s : RelayState) (f : InFrame α),
      (∀ i, f.id = some i → i ∉ s.pending) →
      onMessage s (some f) = (s, none)) ∧
    (∀ (s : RelayState) (i : String) (t : String × String) (suc : Bool)
        (d : Option α) (e : Option String),
      s.timers.find? (fun u => u.1 == i) = some t →
      (fireTimeout (α := α) s i).2 =
        some (i, Outcome.rejected
          ("Command timed out after " ++ toString (COMMAND_TIMEOUT_MS / 1000) ++
            "s: " ++ t.2)) ∧
      onMessage (fireTimeout (α := α) s i).1 (some (mkReply i suc d e)) =
        ((fireTimeout (α := α) s i).1, none)) := by
  constructor
  · intro s f h
    by_cases h1 : f.type = some "ping"
    · simp [onMessage, h1]
    · by_cases h2 : f.type = some "extension_ready"
      · simp [onMessage, h1, h2]
      · cases hf : f.id with
        | none => simp [onMessage, h1, h2, hf]
        | some i => simp [onMessage, h1, h2, hf, h i hf]
  · intro s i t suc d e hfind
    have hft : fireTimeout (α := α) s i =
        ({ s with
           pending := keysRemove s.pending i,
           timers := s.timers.filter (fun u => u.1 != i) },
         some (i, Outcome.rejected
           ("Command timed out after " ++ toString (COMMAND_TIMEOUT_MS / 1000) ++
             "s: " ++ t.2))) := by
      simp [fireTimeout, hfind]
    rw [hft]
    exact ⟨rfl, by simp [onMessage, mkReply, not_mem_keysRemove_self]⟩

/-- C4 witness at concrete inputs: an unmatched reply is dropped, and a reply
arriving after the timeout fired is dropped. -/
theorem c4_witness :
    onMessage (RelayState.mk (some ReadyState.opened) ["a"] [("a", "click")])
        (some (mkReply "ghost" true (some (3 : Nat)) none)) =
      (RelayState.mk (some ReadyState.opened) ["a"] [("a", "click")], none) ∧
    (fireTimeout (α := Nat)
        (RelayState.mk (some ReadyState.opened) ["a"] [("a", "click")]) "a").2 =
      some ("a", Outcome.rejected
        ("Command timed out after " ++ toString (COMMAND_TIMEOUT_MS / 1000) ++
          "s: " ++ "click")) ∧
    onMessage (fireTimeout (α := Nat)
        (RelayState.mk (some ReadyState.opened) ["a"] [("a", "click")]) "a").1
        (some (mkReply "a" true (some 3) none)) =
      ((fireTimeout (α := Nat)
        (RelayState.mk (some ReadyState.opened) ["a"] [("a", "click")]) "a").1,
        none) :=
  ⟨c4_unmatched_reply_dropped.1 _ _ (by intro i hi; cases hi; decide),
   (c4_unmatched_reply_dropped.2
     (RelayState.mk (some ReadyState.opened) ["a"] [("a", "click")])
     "a" ("a", "click") true (some 3) none rfl).1,
   (c4_unmatched_reply_dropped.2
     (RelayState.mk (some ReadyState.opened) ["a"] [("a", "click")])
     "a" ("a", "click") true (some 3) none rfl).2⟩

/-- C5 counterexample: after one consecutive failed connection attempt the
claim predicts a wait of `min(floor * 2 ^ 1, ceiling)` = 2000 ms before
attempt 2, but the code arms the first reconnect timer with the untouched
floor delay of 1000 ms — the doubling happens inside the timer callback,
after the wait. -/
theorem c5_counterexample :
    scheduleReconnectWait 1 = RECONNECT_BASE_MS ∧
    scheduleReconnectWait 1 ≠ min (RECONNECT_BASE_MS * 2 ^ 1) RECONNECT_MAX_MS := by
  exact ⟨rfl, by decide⟩

/-- C5 amended: after k + 1 consecutive failed connection attempts the wait
before attempt k + 2 is `min(floor * 2 ^ k, ceiling)` — the exponent is the
failure count minus one, one doubling fewer than the claim states — with
floor 1000 ms and ceiling 30000 ms. -/
theorem c5_amended_backoff_wait (k : Nat) :
    scheduleReconnectWait (k + 1) =
      min (RECONNECT_BASE_MS * 2 ^ k) RECONNECT_MAX_MS := by
  have key : ∀ j : Nat, reconnectDelayAfter j =
      min (RECONNECT_BASE_MS * 2 ^ j) RECONNECT_MAX_MS := by
    intro j
    induction j with
    | zero => decide
    | succ n ih =>
      simp only [reconnectDelayAfter, ih, nextReconnectDelay, pow_succ,
        RECONNECT_BASE_MS, RECONNECT_MAX_MS]
      omega
  simpa [scheduleReconnectWait] using key k

/-- C6 counterexample: at the empty locator the code does not apply the
claimed strategy.  On a document whose CSS and XPath queries both miss and
which contains an element with empty trimmed text, the claimed text walk
would find that element (its trimmed text equals the trimmed locator), yet
`resolveElement` returns null — the first line `if (!selector) return null`
short-circuits every falsy locator before any strategy runs. -/
theorem c6_counterexample :
    resolveElement docEmptyText "" = none ∧
    docEmptyText.elems.find? (fun n => jsTrim n.textContent == jsTrim "") =
      some (DomElem.mk 0 "") ∧
    docEmptyText.css "" = some none ∧
    docEmptyText.xpath "" = some none := by
  exact ⟨rfl, by decide, rfl, rfl⟩

/-- C6 amended: an empty (falsy) locator resolves to null at once, before any
strategy is attempted; every non-empty locator gets the ordered
first-match-wins strategy.  A CSS hit wins outright; a CSS syntax error or
miss is swallowed and the XPath result is taken when it hits; when both the
CSS and XPath steps error or miss, the element walk returns the first element
in document order whose trimmed text equals the trimmed locator exactly
(whole-string, case matters); and when nothing matches the result is null.
Syntax errors are never propagated: each clause produces an ordinary
result. -/
theorem c6_amended_resolve_ordered (doc : DomDoc) (sel : String) :
    (sel = "" → resolveElement doc sel = none) ∧
    (sel ≠ "" →
      (∀ e, doc.css sel = some (some e) → resolveElement doc sel = some e) ∧
      ((doc.css sel = none ∨ doc.css sel = some none) →
        ∀ e, doc.xpath sel = some (some e) → resolveElement doc sel = some e) ∧
      ((doc.css sel = none ∨ doc.css sel = some none) →
        (doc.xpath sel = none ∨ doc.xpath sel = some none) →
        (resolveElement doc sel =
            doc.elems.find? (fun n => jsTrim n.textContent == jsTrim sel) ∧
          (∀ l₁ e l₂, doc.elems = l₁ ++ e :: l₂ →
            (∀ n ∈ l₁, (jsTrim n.textContent == jsTrim sel) = false) →
            (jsTrim e.textContent == jsTrim sel) = true →
            resolveElement doc sel = some e) ∧
          ((∀ n ∈ doc.elems, (jsTrim n.textContent == jsTrim sel) = false) →
            resolveElement doc sel = none)))) := by
  constructor
  · intro hempty
    simp [resolveElement, hempty]
  · intro hsel
    refine ⟨?_, ?_, ?_⟩
    · intro e h
      simp [resolveElement, hsel, h]
    · rintro (h | h) e hx <;> simp [resolveElement, hsel, h, hx]
    · intro hcss hxp
      have hbase : resolveElement doc sel =
          doc.elems.find? (fun n => jsTrim n.textContent == jsTrim sel) := by
        rcases hcss with h | h <;> rcases hxp with hx | hx <;>
          simp [resolveElement, hsel, h, hx]
      refine ⟨hbase, ?_, ?_⟩
      · intro l₁ e l₂ hsplit hl hmatch
        rw [hbase, hsplit]
        exact find_first_in_append _ _ _ _ hl hmatch
      · intro hnone
        rw [hbase, List.find?_eq_none]
        intro x hx
        simp [hnone x hx]

/-- C6 witness: the empty locator resolves to null, and with CSS and XPath
both missing a non-empty locator resolves by the text walk to the first
element whose trimmed text equals the trimmed locator, skipping a
non-matching earlier element. -/
theorem c6_witness :
    resolveElement docTextOnly "" = none ∧
    resolveElement docTextOnly "Hello" = some (DomElem.mk 1 "  Hello  ") :=
  ⟨(c6_amended_resolve_ordered docTextOnly "").1 rfl,
   (((c6_amended_resolve_ordered docTextOnly "Hello").2 (by decide)).2.2
       (Or.inr rfl) (Or.inr rfl)).2.1
     [DomElem.mk 0 "Nope"] (DomElem.mk 1 "  Hello  ") [DomElem.mk 2 "Hello"]
     rfl (by intro n hn; simp at hn; subst hn; decide) (by decide)⟩

/-- C7 counterexample: the url httpbin.org carries no scheme (it contains no
colon at all), yet navigate leaves it unchanged instead of normalizing it to
https://httpbin.org, because the code tests the literal character sequence
http rather than the presence of a scheme. -/
theorem c7_counterexample :
    targetUrl "httpbin.org" = "httpbin.org" ∧
    (':' ∈ "httpbin.org".data → False) ∧
    "httpbin.org" ≠ "https://httpbin.org" := by
  exact ⟨by decide, by decide, by decide⟩

/-- C7 amended: navigate prefixes https:// to every url that does not start
with the character sequence http and leaves every url that does start with it
unchanged; in particular the scheme-less example.com is normalized to
https://example.com and urls already carrying http:// or https:// schemes are
untouched. -/
theorem c7_amended_url_normalization :
    targetUrl "example.com" = "https://example.com" ∧
    targetUrl "https://example.com" = "https://example.com" ∧
    targetUrl "http://example.com" = "http://example.com" ∧
    (∀ url, jsStartsWith url "http" = false → targetUrl url = "https://" ++ url) ∧
    (∀ url, jsStartsWith url "http" = true → targetUrl url = url) := by
  refine ⟨by decide, by decide, by decide, ?_, ?_⟩
  · intro url h
    simp [targetUrl, h]
  · intro url h
    simp [targetUrl, h]

/-- C7 witness for the amended statement at a concrete input. -/
theorem c7_witness : targetUrl "zeroclaw.dev" = "https://" ++ "zeroclaw.dev" :=
  c7_amended_url_normalization.2.2.2.1 "zeroclaw.dev" (by decide)

/-- C8 counterexample: frobnicate lies outside the enumerated action set, yet
with a connected peer the relay sends an envelope for it over the peer
connection — `sendCommand` never validates the action, so the command is not
rejected before peer interaction. -/
theorem c8_counterexample :
    SHORTCUT_ACTIONS.contains "frobnicate" = false ∧
    (sendCommand (α := Nat) (RelayState.mk (some ReadyState.opened) [] [])
        "frobnicate" [] "id-9").sent =
      some (Envelope.mk "id-9" "frobnicate" []) := by
  exact ⟨by decide, rfl⟩

/-- C8 amended: a command whose action lies outside the enumerated set is
still forwarded to the peer when the link is up — the relay sends its
envelope — and the unknown-action rejection is produced on the executor side:
the extension router answers with an id-matched failure frame whose error is
the unknown-action message, which the relay then delivers to the caller as
the rejection of the pending request. -/
theorem c8_amended_forwarded_unknown_action {α : Type}
    (background contentScript : String → List (String × String) → Except String α)
    (s : RelayState) (a : String) (params : List (String × String)) (i : String)
    (ha : SHORTCUT_ACTIONS.contains a = false)
    (hopen : socketIsOpen s.socket = true) (hi : i ≠ "") :
    (sendCommand (α := α) s a params i).sent = some (Envelope.mk i a params) ∧
    wsOnMessage background contentScript
        (some (ExtInFrame.mk (some i) (some a) params)) =
      [ExtReply.mk (some i) false none (some ("Unknown action: " ++ a))] ∧
    (onMessage (sendCommand (α := α) s a params i).state
        (some (replyToInFrame (ExtReply.mk (α := α) (some i) false none
          (some ("Unknown action: " ++ a)))))).2 =
      some (i, Outcome.rejected (α := α) ("Unknown action: " ++ a)) := by
  have hmem : a ∉ SHORTCUT_ACTIONS := by simpa using ha
  simp only [SHORTCUT_ACTIONS, List.mem_cons, List.mem_singleton] at hmem
  push_neg at hmem
  obtain ⟨h1, h2, h3, h4, h5, h6, h7, h8, h9⟩ := hmem
  refine ⟨by simp [sendCommand, hopen], ?_, ?_⟩
  · simp [wsOnMessage, handleCommand, h1, h2, h3, h4, h5, h6, h7, h8, h9]
  · simp [sendCommand, hopen, onMessage, replyToInFrame, hi, mem_keysAdd_self,
      jsStringOr, unknown_action_msg_ne_empty a]

/-- C8 amended witness at concrete inputs. -/
theorem c8_amended_witness :
    (sendCommand (α := Nat) (RelayState.mk (some ReadyState.opened) [] [])
        "teleport" [] "id-3").sent = some (Envelope.mk "id-3" "teleport" []) ∧
    wsOnMessage (α := Nat) (fun _ _ => Except.ok 0) (fun _ _ => Except.ok 0)
        (some (ExtInFrame.mk (some "id-3") (some "teleport") [])) =
      [ExtReply.mk (some "id-3") false none (some ("Unknown action: " ++ "teleport"))] ∧
    (onMessage (sendCommand (α := Nat) (RelayState.mk (some ReadyState.opened) [] [])
        "teleport" [] "id-3").state
        (some (replyToInFrame (ExtReply.mk (α := Nat) (some "id-3") false none
          (some ("Unknown action: " ++ "teleport")))))).2 =
      some ("id-3", Outcome.rejected (α := Nat) ("Unknown action: " ++ "teleport")) :=
  c8_amended_forwarded_unknown_action (fun _ _ => Except.ok 0)
    (fun _ _ => Except.ok 0) (RelayState.mk (some ReadyState.opened) [] [])
    "teleport" [] "id-3" (by decide) rfl (by decide)

/-- C9: the health handler always returns an object with exactly the three
fields status, extensionConnected (the field the spec calls peerConnected)
and pendingCommands (the field the spec calls pendingCount); the connected
flag is true exactly when a peer socket exists and is in the OPEN state, and
the count is the size of the pending table. -/
theorem c9_health_shape (s : RelayState) :
    healthHandler s =
      [("status", HVal.str "ok"),
       ("extensionConnected", HVal.bool (socketIsOpen s.socket)),
       ("pendingCommands", HVal.nat s.pending.length)] ∧
    (socketIsOpen s.socket = true ↔ s.socket = some ReadyState.opened) := by
  refine ⟨rfl, ?_⟩
  cases hs : s.socket with
  | none => simp [socketIsOpen]
  | some rs => cases rs <;> simp [socketIsOpen]

/-- C9 witness at a concrete state with an OPEN socket and two pending ids. -/
theorem c9_witness :
    healthHandler (RelayState.mk (some ReadyState.opened) ["x", "y"] []) =
      [("status", HVal.str "ok"),
       ("extensionConnected", HVal.bool true),
       ("pendingCommands", HVal.nat 2)] ∧
    socketIsOpen (some ReadyState.opened) = true :=
  ⟨(c9_health_shape (RelayState.mk (some ReadyState.opened) ["x", "y"] [])).1,
   (c9_health_shape (RelayState.mk (some ReadyState.opened) ["x", "y"] [])).2.mpr rfl⟩

/-- C10: for every successfully parsed command frame the extension sends back
exactly one reply frame, its id field equals the id field of the incoming
frame, and it carries `{id, success:true, data}` when the command succeeded
and `{id, success:false, error}` when it failed — the correlation id is never
remapped or dropped on the executor side. -/
theorem c10_reply_correlation {α : Type}
    (background contentScript : String → List (String × String) → Except String α)
    (msg : ExtInFrame) :
    (wsOnMessage background contentScript (some msg)).length = 1 ∧
    ∀ r ∈ wsOnMessage background contentScript (some msg),
      r.id = msg.id ∧
      ((∃ d, handleCommand background contentScript msg.action msg.params =
          Except.ok d ∧ r.success = true ∧ r.data = some d ∧ r.error = none) ∨
       (∃ e, handleCommand background contentScript msg.action msg.params =
          Except.error e ∧ r.success = false ∧ r.data = none ∧ r.error = some e)) := by
  cases h : handleCommand background contentScript msg.action msg.params with
  | ok d =>
    refine ⟨by simp [wsOnMessage, h], ?_⟩
    intro r hr
    simp only [wsOnMessage, h, List.mem_singleton] at hr
    subst hr
    exact ⟨rfl, Or.inl ⟨d, rfl, rfl, rfl, rfl⟩⟩
  | error e =>
    refine ⟨by simp [wsOnMessage, h], ?_⟩
    intro r hr
    simp only [wsOnMessage, h, List.mem_singleton] at hr
    subst hr
    exact ⟨rfl, Or.inr ⟨e, rfl, rfl, rfl, rfl⟩⟩

/-- C10 witness at a concrete frame. -/
theorem c10_witness :
    (wsOnMessage (α := Nat) (fun _ _ => Except.ok 7) (fun _ _ => Except.ok 7)
        (some (ExtInFrame.mk (some "w1") (some "navigate") []))).length = 1 ∧
    (ExtReply.mk (some "w1") true (some (7 : Nat)) none).id = some "w1" :=
  ⟨(c10_reply_correlation (fun _ _ => Except.ok 7) (fun _ _ => Except.ok 7)
      (ExtInFrame.mk (some "w1") (some "navigate") [])).1,
   ((c10_reply_correlation (fun _ _ => Except.ok 7) (fun _ _ => Except.ok 7)
      (ExtInFrame.mk (some "w1") (some "navigate") [])).2
      (ExtReply.mk (some "w1") true (some 7) none) (by decide)).1⟩

end ZeroClaw
